import Mathlib

/-!
Shallow embedding of the SQLite-backed disk key-value stores
(`key_value/aio/stores/disk/store.py` and `multi_store.py`).

The single `kv` table (`key TEXT PRIMARY KEY, value TEXT NOT NULL,
expire_at REAL`) is modelled as a `List Row` in physical rowid order
(head = oldest insertion).  Timestamps are modelled as integers: every
claim about them only uses ordering and (non-)nullness, never float
rounding.  `INSERT OR REPLACE` deletes the conflicting row and inserts
the new row with a fresh rowid, i.e. the new row goes to the end of the
list.
-/

namespace DiskKV

/-- One row of the `kv` table: `key TEXT PRIMARY KEY, value TEXT NOT NULL,
`expire_at REAL` (nullable). -/
structure Row where
  key : String
  value : String
  expire_at : Option Int
deriving DecidableEq, Repr

/-- Row size `LENGTH(key) + LENGTH(value)` for one row (character counts, the
approximate size accounting used by `_sqlite_evict`). -/
def approxSize (r : Row) : Nat :=
  r.key.length + r.value.length

/-- Total size `SELECT COALESCE(SUM(LENGTH(key) + LENGTH(value)), 0) FROM kv`. -/
def totalSize (rows : List Row) : Nat :=
  (rows.map approxSize).sum

/-- The predicate of the expire sweep in `_sqlite_evict`:
`expire_at IS NOT NULL AND expire_at < now`. -/
def isExpired (now : Int) (r : Row) : Bool :=
  match r.expire_at with
  | none => false
  | some t => decide (t < now)

/-- Function `_sqlite_get_with_expire` (store.py:39-52): single-row lookup by exact
key; `(none, none)` when no row matches. -/
def _sqlite_get_with_expire (rows : List Row) (key : String) :
    Option String × Option Int :=
  match rows.find? (fun r => r.key == key) with
  | none => (none, none)
  | some r => (some r.value, r.expire_at)

/-- Function `_sqlite_set` (store.py:55-81): computes `expire_at = now + expire`
when a TTL is supplied, then `INSERT OR REPLACE` keyed by `key`: the
conflicting row (if any) is deleted and the fresh row is appended at the
end of physical row order. -/
def _sqlite_set (now : Int) (rows : List Row) (key value : String)
    (expire : Option Int) : List Row :=
  let expire_at : Option Int := expire.map (fun ttl => now + ttl)
  rows.filter (fun r => !(r.key == key)) ++ [⟨key, value, expire_at⟩]

/-- Function `_sqlite_delete` (store.py:84-96): `DELETE FROM kv WHERE key = ?`;
returns the remaining rows and whether a row existed. -/
def _sqlite_delete (rows : List Row) (key : String) : List Row × Bool :=
  (rows.filter (fun r => !(r.key == key)), rows.any (fun r => r.key == key))

/-- Function `_sqlite_clear` (store.py:99-110): `DELETE FROM kv`; returns the empty
table and the number of rows removed. -/
def _sqlite_clear (rows : List Row) : List Row × Nat :=
  ([], rows.length)

/-- The `while total_size > max_size` trim loop of `_sqlite_evict`
(store.py:137-147): while the total approximate size exceeds `maxSize`
and rows remain, delete the `max 1 (total_rows / 10)` rows that are
oldest in physical row order (`ORDER BY rowid ASC LIMIT ?`). -/
def evictLoop (maxSize : Int) (rows : List Row) : List Row :=
  if (totalSize rows : Int) > maxSize then
    if h : rows.length = 0 then rows
    else evictLoop maxSize (rows.drop (max 1 (rows.length / 10)))
  else rows
termination_by rows.length
decreasing_by
  rw [List.length_drop]
  exact Nat.sub_lt (Nat.pos_of_ne_zero h)
    (Nat.lt_of_lt_of_le Nat.one_pos (Nat.le_max_left 1 _))

/-- Function `_sqlite_evict` (store.py:122-147): first the expire sweep
(`DELETE FROM kv WHERE expire_at IS NOT NULL AND expire_at < now`), then
the proportional trim loop. -/
def _sqlite_evict (now : Int) (maxSize : Int) (rows : List Row) : List Row :=
  evictLoop maxSize (rows.filter (fun r => !(isExpired now r)))

/-- Fixed database filename `_DB_FILENAME = "store.db"` (store.py:14). -/
def _DB_FILENAME : String :=
  "store.db"

/-- Modelled from the spec: `compound_key` lives in `key_value.shared.compound`,
outside this repository's four source files.  Per spec section 4.5 it produces
`collection + separator + key` with a fixed reserved separator; the repository
test `test_value_stored` shows the separator is the two-character sequence
`::`. -/
def compound_key (collection key : String) : String :=
  collection ++ ("::") ++ key

/-- The slice of the external `ManagedEntry` visible to this core: the value
payload (opaque to this backend, reproduced by `load_json`) and the
expiration field that `_get_managed_entry` may overwrite from the
`expire_at` column. -/
structure ManagedEntry where
  payload : String
  expires_at : Option Int
deriving DecidableEq, Repr

/-- Python truthiness of `expire_epoch` in `if expire_epoch:` (store.py:254,
multi_store.py:151): `None` and `0.0` are falsy, every other float is
truthy. -/
def pyTruthy (x : Option Int) : Bool :=
  match x with
  | none => false
  | some t => !(t == 0)

/-- Shared body of `DiskStore._get_managed_entry` (store.py:242-257) and
`MultiDiskStore._get_managed_entry` (multi_store.py:141-154), applied to an
already-resolved key: look the key up with `_sqlite_get_with_expire`,
return `none` when the value is not a string (no row), otherwise
deserialize the stored payload (`load_json`, an external collaborator kept
abstract as `deser`) and overwrite the entry's expiration field with the
`expire_at` column value when `if expire_epoch:` is truthy. -/
def getManagedEntryCore (deser : String → ManagedEntry) (rows : List Row)
    (key : String) : Option ManagedEntry :=
  match _sqlite_get_with_expire rows key with
  | (none, _) => none
  | (some s, e) =>
      some (if pyTruthy e then { deser s with expires_at := e } else deser s)

/-- Method `DiskStore._get_managed_entry` (store.py:242-257): the single
database holds all collections under compound keys. -/
def DiskStore_get_managed_entry (deser : String → ManagedEntry)
    (rows : List Row) (collection key : String) : Option ManagedEntry :=
  getManagedEntryCore deser rows (compound_key collection key)

/-- Method `DiskStore._put_managed_entry` (store.py:259-277): upsert under
the compound key (`value` stands for the serialized `dump_json` text), then
run `_sqlite_evict` when `self._max_size is not None and self._max_size >
0`. -/
def DiskStore_put_managed_entry (now : Int) (max_size : Option Int)
    (rows : List Row) (collection key value : String) (ttl : Option Int) :
    List Row :=
  let rows1 := _sqlite_set now rows (compound_key collection key) value ttl
  match max_size with
  | some m => if m > 0 then _sqlite_evict now m rows1 else rows1
  | none => rows1

/-- Method `MultiDiskStore._get_managed_entry` (multi_store.py:141-154):
the raw key is looked up in the target collection's own database. -/
def MultiDiskStore_get_managed_entry (deser : String → ManagedEntry)
    (conns : String → List Row) (collection key : String) :
    Option ManagedEntry :=
  getManagedEntryCore deser (conns collection) key

/-- Reference to an open SQLite connection: either a caller-supplied
connection (an opaque id) or a connection created by `_create_connection`
on a database file path. -/
inductive ConnRef where
  | external (id : Nat)
  | file (path : List String)
deriving DecidableEq, Repr

/-- A directory path, a list of path segments. -/
abbrev Dir := List String

/-- The directories that currently exist on the filesystem. -/
abbrev FS := List Dir

/-- Effect of `directory.mkdir(parents=True, exist_ok=True)`: every
non-empty prefix of `dir` (all intermediate directories and `dir` itself)
exists afterwards. -/
def mkdirParents (fs : FS) (dir : Dir) : FS :=
  fs ++ (List.range dir.length).map (fun i => dir.take (i + 1))

/-- The `ValueError`s raised at construction / directory-opening time (the
spec's ConfigurationError taxonomy). -/
inductive ConfigError where
  | bothProvided
  | neitherProvided
  | missingDirectory (dir : Dir)
deriving DecidableEq, Repr

/-- Constructor-initialized state of a `DiskStore` (store.py:150-233). -/
structure DiskStoreState where
  client_provided_by_user : Bool
  auto_create : Bool
  max_size : Option Int
  conn : ConnRef
deriving DecidableEq, Repr

/-- Constructor `DiskStore.__init__` (store.py:182-233): raises when both
`connection` and `directory` are supplied, raises when neither is, stores
the ownership flag; in the directory branch, when the directory is missing
it raises if `auto_create` is false and otherwise creates it with parents,
then opens `directory / _DB_FILENAME`.  Returns the new state (or the
error) together with the filesystem after any side effect. -/
def DiskStore_init (connection : Option Nat) (directory : Option Dir)
    (max_size : Option Int) (auto_create : Bool) (fs : FS) :
    Except ConfigError DiskStoreState × FS :=
  match connection, directory with
  | some _, some _ => (Except.error ConfigError.bothProvided, fs)
  | none, none => (Except.error ConfigError.neitherProvided, fs)
  | some c, none =>
      (Except.ok ⟨true, auto_create, max_size, ConnRef.external c⟩, fs)
  | none, some d =>
      if fs.contains d then
        (Except.ok ⟨false, auto_create, max_size,
          ConnRef.file (d ++ [_DB_FILENAME])⟩, fs)
      else if auto_create then
        (Except.ok ⟨false, auto_create, max_size,
          ConnRef.file (d ++ [_DB_FILENAME])⟩, mkdirParents fs d)
      else (Except.error (ConfigError.missingDirectory d), fs)

/-- Which connections are currently open. -/
abbrev ConnOpen := ConnRef → Bool

/-- Teardown of a `DiskStore`: `_setup` (store.py:235-239) registers
`_sqlite_close` on the exit stack only when the store created the
connection itself (`if not self._client_provided_by_user`), so running the
exit stack closes `conn` exactly in that case. -/
def DiskStore_teardown (client_provided_by_user : Bool) (conn : ConnRef)
    (opens : ConnOpen) : ConnOpen :=
  if client_provided_by_user then opens
  else fun c => if c == conn then false else opens c

/-- Characters stripped by filename sanitization (see
`_sanitize_collection_for_filesystem`). -/
def invalidFilenameChars : List Char :=
  ['/', '\\', ':', '*', '?', '"', '<', '>', '|']

/-- Modelled from the spec: `_sanitize_collection_for_filesystem`
(multi_store.py:32-35) delegates to `pathvalidate.sanitize_filename`,
which is outside this repository; per spec section 4.4 the collection name
is sanitized by stripping the characters that are invalid in filesystem
names. -/
def _sanitize_collection_for_filesystem (collection : String) : String :=
  ⟨collection.data.filter (fun ch => !(invalidFilenameChars.contains ch))⟩

/-- Function `default_connection_factory` (multi_store.py:106-118):
sanitize the collection name, target
`base_directory / sanitized / _DB_FILENAME`, raise when the directory is
missing and `auto_create` is false, otherwise create it with parents and
open the database file. -/
def default_connection_factory (base_directory : Dir) (auto_create : Bool)
    (fs : FS) (collection : String) : Except ConfigError ConnRef × FS :=
  let cache_directory : Dir :=
    base_directory ++ [_sanitize_collection_for_filesystem collection]
  if fs.contains cache_directory then
    (Except.ok (ConnRef.file (cache_directory ++ [_DB_FILENAME])), fs)
  else if auto_create then
    (Except.ok (ConnRef.file (cache_directory ++ [_DB_FILENAME])),
      mkdirParents fs cache_directory)
  else (Except.error (ConfigError.missingDirectory cache_directory), fs)

/-- Constructor-initialized state of a `MultiDiskStore`
(multi_store.py:38-129). -/
structure MultiDiskStoreState where
  base_directory : Dir
  auto_create : Bool
  max_size : Option Int
  factory_provided_by_user : Bool
deriving DecidableEq, Repr

/-- Constructor `MultiDiskStore.__init__` (multi_store.py:76-129): raises
only when neither `connection_factory` nor `base_directory` is provided;
otherwise `base_directory` defaults to the working directory and the
caller's factory, when given, takes precedence over
`default_connection_factory`.  The constructor performs no both-provided
check. -/
def MultiDiskStore_init (connection_factory : Option (String → ConnRef))
    (base_directory : Option Dir) (max_size : Option Int)
    (auto_create : Bool) (cwd : Dir) :
    Except ConfigError MultiDiskStoreState :=
  match connection_factory, base_directory with
  | none, none => Except.error ConfigError.neitherProvided
  | f, d => Except.ok ⟨d.getD cwd, auto_create, max_size, f.isSome⟩

/-- Modelled from the spec: the store lifecycle contract (spec section 6)
invokes the `_setup_collection` hook only the first time a collection is
touched, so an already-cached collection name is reused without calling
the factory again; the hook body itself (multi_store.py:137-138) caches
`factory collection` under the raw collection name. -/
def touch_collection (factory : String → ConnRef)
    (conns : List (String × ConnRef)) (collection : String) :
    List (String × ConnRef) :=
  if (conns.lookup collection).isSome then conns
  else conns ++ [(collection, factory collection)]

/-- Method `MultiDiskStore._sync_close` (multi_store.py:178-180): closes
every connection in `self._conn.values()`, with no ownership check. -/
def MultiDiskStore_sync_close (conns : List (String × ConnRef))
    (opens : ConnOpen) : ConnOpen :=
  fun c => if (conns.map Prod.snd).contains c then false else opens c

/-! Helper lemmas shared by the claim theorems. -/

theorem evictLoop_nil (m : Int) : evictLoop m [] = [] := by
  rw [evictLoop.eq_def]
  split_ifs with h1 h2
  · rfl
  · exact absurd rfl h2
  · rfl

theorem evictLoop_post (m : Int) :
    ∀ (n : Nat) (rows : List Row), rows.length ≤ n →
      (totalSize (evictLoop m rows) : Int) ≤ m ∨ evictLoop m rows = [] := by
  intro n
  induction n with
  | zero =>
      intro rows h
      have hnil : rows = [] := List.eq_nil_of_length_eq_zero (Nat.le_zero.mp h)
      subst hnil
      exact Or.inr (evictLoop_nil m)
  | succ n ih =>
      intro rows h
      by_cases hgt : (totalSize rows : Int) > m
      · by_cases hz : rows.length = 0
        · have hnil : rows = [] := List.eq_nil_of_length_eq_zero hz
          subst hnil
          exact Or.inr (evictLoop_nil m)
        · rw [evictLoop.eq_def, if_pos hgt, dif_neg hz]
          apply ih
          rw [List.length_drop]
          have h1 : 1 ≤ max 1 (rows.length / 10) := Nat.le_max_left 1 _
          omega
      · rw [evictLoop.eq_def, if_neg hgt]
        exact Or.inl (not_lt.mp hgt)

theorem filter_idem (p : Row → Bool) (l : List Row) :
    (l.filter p).filter p = l.filter p := by
  induction l with
  | nil => rfl
  | cons a l ih => by_cases h : p a <;> simp [List.filter_cons, h, ih]

theorem filter_of_filter_not (p : Row → Bool) (l : List Row) :
    (l.filter (fun r => !(p r))).filter p = [] := by
  induction l with
  | nil => rfl
  | cons a l ih => by_cases h : p a <;> simp [List.filter_cons, h, ih]

theorem find?_filter_not_eq_none (p : Row → Bool) (l : List Row) :
    (l.filter (fun r => !(p r))).find? p = none := by
  rw [List.find?_eq_none]
  intro x hx
  have hpx := (List.mem_filter.mp hx).2
  simp only [Bool.not_eq_true'] at hpx
  simp [hpx]

theorem find?_filter_of_imp (p q : Row → Bool) (l : List Row)
    (h : ∀ r, p r = true → q r = true) : (l.filter q).find? p = l.find? p := by
  induction l with
  | nil => rfl
  | cons a l ih =>
      by_cases hq : q a
      · by_cases hp : p a <;> simp [List.filter_cons, List.find?_cons, hq, hp, ih]
      · have hp : p a = false := by
          cases hpa : p a
          · rfl
          · exact absurd (h a hpa) hq
        simp [List.filter_cons, List.find?_cons, hq, hp, ih]

theorem get_after_set (now : Int) (rows : List Row) (k v : String)
    (e : Option Int) :
    _sqlite_get_with_expire (_sqlite_set now rows k v e) k
      = (some v, e.map (fun ttl => now + ttl)) := by
  unfold _sqlite_get_with_expire _sqlite_set
  rw [List.find?_append, find?_filter_not_eq_none]
  simp [List.find?_cons]

theorem get_unaffected_by_other_set (now : Int) (rows : List Row)
    (k other v : String) (e : Option Int) (h : k ≠ other) :
    _sqlite_get_with_expire (_sqlite_set now rows other v e) k
      = _sqlite_get_with_expire rows k := by
  unfold _sqlite_get_with_expire _sqlite_set
  rw [List.find?_append]
  have h1 : (List.find? (fun r => r.key == k) [(⟨other, v,
      e.map (fun ttl => now + ttl)⟩ : Row)]) = none := by
    have hok : (other == k) = false := by
      simp only [beq_eq_false_iff_ne]
      exact fun hc => h hc.symm
    simp [List.find?_cons, hok]
  rw [h1, Option.or_none, find?_filter_of_imp]
  intro r hr
  simp only [beq_iff_eq] at hr
  simp [hr, h]

theorem compound_key_ne (A B k : String) (h : A ≠ B) :
    compound_key A k ≠ compound_key B k := by
  intro hc
  apply h
  unfold compound_key at hc
  have hd := congrArg String.data hc
  simp only [String.data_append, List.append_assoc] at hd
  exact String.ext (List.append_cancel_right hd)

/-! Claim theorems. -/

/-- C1: with eviction enabled (positive `max_size`), the trim loop invoked
after a `Set` always terminates (`evictLoop` is a total function, accepted
by well-founded recursion on the row count), and at termination the total
approximate size (sum of key and value lengths over the remaining rows) is
at most the bound, or no rows remain.  Stated both for `_sqlite_evict`
itself and for the `Set` path `DiskStore._put_managed_entry` that invokes
it. -/
theorem C1_evict_size_bound (now m : Int) (rows : List Row) (hm : 0 < m) :
    ((totalSize (_sqlite_evict now m rows) : Int) ≤ m
      ∨ _sqlite_evict now m rows = [])
    ∧ ∀ (collection key value : String) (ttl : Option Int),
        (totalSize (DiskStore_put_managed_entry now (some m) rows
            collection key value ttl) : Int) ≤ m
        ∨ DiskStore_put_managed_entry now (some m) rows
            collection key value ttl = [] := by
  constructor
  · exact evictLoop_post m _ _ le_rfl
  · intro collection key value ttl
    unfold DiskStore_put_managed_entry
    simp only [gt_iff_lt, hm, if_true]
    exact evictLoop_post m _ _ le_rfl

/-- Witness for C1 at a concrete input: bound 1, one row of size 2. -/
theorem C1_evict_size_bound_witness :
    (totalSize (_sqlite_evict 0 1 [⟨"k", "v", none⟩]) : Int) ≤ 1
    ∨ _sqlite_evict 0 1 [⟨"k", "v", none⟩] = [] :=
  (C1_evict_size_bound 0 1 [⟨"k", "v", none⟩] (by decide)).1

/-- C2: the eviction pass first deletes exactly the rows whose `expire_at`
is non-null and less than the current time (the sweep is a sublist keeping
precisely the non-expired rows), and then, while the total approximate
size exceeds the bound and rows remain, each iteration deletes exactly the
`max 1 (row_count / 10)` rows that are oldest by insertion order (the
prefix of the list in physical row order). -/
theorem C2_evict_order (now m : Int) (rows : List Row) :
    _sqlite_evict now m rows
      = evictLoop m (rows.filter (fun r => !(isExpired now r)))
    ∧ (∀ r : Row, r ∈ rows.filter (fun r => !(isExpired now r)) ↔
        r ∈ rows ∧ ¬(∃ t : Int, r.expire_at = some t ∧ t < now))
    ∧ (rows.filter (fun r => !(isExpired now r))).Sublist rows
    ∧ (∀ rs : List Row, (totalSize rs : Int) > m → rs ≠ [] →
        evictLoop m rs = evictLoop m (rs.drop (max 1 (rs.length / 10))))
    ∧ (∀ rs : List Row, ¬((totalSize rs : Int) > m) → evictLoop m rs = rs)
    ∧ evictLoop m [] = [] := by
  refine ⟨rfl, ?_, List.filter_sublist rows, ?_, ?_, evictLoop_nil m⟩
  · intro r
    rw [List.mem_filter]
    cases hr : r.expire_at <;> simp [isExpired, hr]
  · intro rs hgt hne
    rw [evictLoop.eq_def, if_pos hgt,
      dif_neg (fun hz => hne (List.eq_nil_of_length_eq_zero hz))]
  · intro rs hle
    rw [evictLoop.eq_def, if_neg hle]

/-- Witness for C2 at a concrete input: a single row of size 3 against
bound 0 triggers one trim iteration deleting `max 1 (1 / 10) = 1` row. -/
theorem C2_evict_order_witness :
    evictLoop 0 [⟨"a", "bb", none⟩]
      = evictLoop 0 (List.drop (max 1 (List.length [(⟨"a", "bb", none⟩ : Row)] / 10))
          [⟨"a", "bb", none⟩]) :=
  (C2_evict_order 0 0 []).2.2.2.1 [⟨"a", "bb", none⟩] (by decide) (by decide)

/-- C3: `Set` has replace semantics: setting the same key twice with
different values leaves exactly one row with that key, holding the second
call's value and `expire_at`, and the resulting table equals the one
produced by the second `Set` alone. -/
theorem C3_second_set_wins (now1 now2 : Int) (rows : List Row)
    (k v1 v2 : String) (e1 e2 : Option Int) (hv : v1 ≠ v2) :
    _sqlite_set now2 (_sqlite_set now1 rows k v1 e1) k v2 e2
      = _sqlite_set now2 rows k v2 e2
    ∧ (_sqlite_set now2 (_sqlite_set now1 rows k v1 e1) k v2 e2).filter
        (fun r => r.key == k)
      = [⟨k, v2, e2.map (fun ttl => now2 + ttl)⟩] := by
  constructor
  · unfold _sqlite_set
    rw [List.filter_append, filter_idem]
    simp [List.filter_cons]
  · unfold _sqlite_set
    rw [List.filter_append, List.filter_append, filter_idem,
      List.filter_append, filter_of_filter_not]
    simp [List.filter_cons]

/-- Witness for C3 at a concrete input. -/
theorem C3_second_set_wins_witness :
    _sqlite_set 0 (_sqlite_set 0 [] ("k") ("a") none) ("k") ("b") none
      = _sqlite_set 0 [] ("k") ("b") none
    ∧ (_sqlite_set 0 (_sqlite_set 0 [] ("k") ("a") none) ("k") ("b")
        none).filter (fun r => r.key == "k")
      = [⟨"k", "b", Option.map (fun ttl => 0 + ttl) none⟩] :=
  C3_second_set_wins 0 0 [] ("k") ("a") ("b") none none (by decide)

/-- C4: in single-database mode, two distinct collection names produce
distinct compound keys for the same key, so their `Set`s write distinct
rows and each collection's `GetWithExpire` returns its own value. -/
theorem C4_namespace_isolation (rows : List Row) (A B k v1 v2 : String)
    (e1 e2 : Option Int) (now1 now2 : Int) (hAB : A ≠ B) :
    compound_key A k ≠ compound_key B k
    ∧ (_sqlite_get_with_expire
        (_sqlite_set now2 (_sqlite_set now1 rows (compound_key A k) v1 e1)
          (compound_key B k) v2 e2)
        (compound_key A k)).1 = some v1
    ∧ (_sqlite_get_with_expire
        (_sqlite_set now2 (_sqlite_set now1 rows (compound_key A k) v1 e1)
          (compound_key B k) v2 e2)
        (compound_key B k)).1 = some v2 := by
  have hck := compound_key_ne A B k hAB
  refine ⟨hck, ?_, ?_⟩
  · rw [get_unaffected_by_other_set _ _ _ _ _ _ hck, get_after_set]
  · rw [get_after_set]

/-- Witness for C4 at a concrete input. -/
theorem C4_namespace_isolation_witness :
    compound_key ("A") ("k") ≠ compound_key ("B") ("k")
    ∧ (_sqlite_get_with_expire
        (_sqlite_set 0 (_sqlite_set 0 [] (compound_key ("A") ("k")) ("v1") none)
          (compound_key ("B") ("k")) ("v2") none)
        (compound_key ("A") ("k"))).1 = some ("v1")
    ∧ (_sqlite_get_with_expire
        (_sqlite_set 0 (_sqlite_set 0 [] (compound_key ("A") ("k")) ("v1") none)
          (compound_key ("B") ("k")) ("v2") none)
        (compound_key ("B") ("k"))).1 = some ("v2") :=
  C4_namespace_isolation [] ("A") ("B") ("k") ("v1") ("v2") none none 0 0
    (by decide)

/-- Counterexample to C5 as stated: a `MultiDiskStore` whose collection
`"c"` was set up through a caller-supplied connection factory producing
connection 7; the teardown `_sync_close` closes that factory-produced
connection, whereas the claim says it is still open after teardown. -/
theorem C5_counterexample :
    MultiDiskStore_sync_close
        (touch_collection (fun x => ConnRef.external 7) [] ("c"))
        (fun x => true) (ConnRef.external 7) = false := by
  decide

/-- C5 amended: a `DiskStore` constructed with a caller-supplied connection
never closes it on teardown (`_setup` registers no close callback), but
`MultiDiskStore` teardown closes every cached connection, including ones
produced by a caller-supplied connection factory, with no ownership
check. -/
theorem C5_teardown_ownership (conn : ConnRef) (opens : ConnOpen) :
    DiskStore_teardown true conn opens = opens
    ∧ ∀ (conns : List (String × ConnRef)) (c : ConnRef),
        c ∈ conns.map Prod.snd →
        MultiDiskStore_sync_close conns opens c = false := by
  refine ⟨rfl, ?_⟩
  intro conns c hc
  have hcont : (conns.map Prod.snd).contains c = true := by
    simpa [List.contains] using hc
  have hdef : MultiDiskStore_sync_close conns opens c
      = if (conns.map Prod.snd).contains c then false else opens c := rfl
  rw [hdef, hcont]
  simp

/-- Witness for C5 (amended) at a concrete input. -/
theorem C5_teardown_ownership_witness :
    MultiDiskStore_sync_close [(("c"), ConnRef.external 7)] (fun x => true)
      (ConnRef.external 7) = false :=
  (C5_teardown_ownership (ConnRef.external 3) (fun x => true)).2
    [(("c"), ConnRef.external 7)] (ConnRef.external 7) (by decide)

theorem lookup_none_not_mem (conns : List (String × ConnRef)) (c : String)
    (h : conns.lookup c = none) : c ∉ conns.map Prod.fst := by
  induction conns with
  | nil => simp
  | cons a l ih =>
      obtain ⟨k, v⟩ := a
      by_cases hck : c = k
      · subst hck
        simp [List.lookup] at h
      · have hb : (c == k) = false := by
          simpa [beq_eq_false_iff_ne] using hck
        simp only [List.lookup, hb] at h
        simp only [List.map_cons, List.mem_cons]
        push_neg
        exact ⟨hck, ih h⟩

/-- Counterexample to C6 as stated: the collection names `"a/b"` and `"ab"`
are distinct but sanitize to the same filesystem name, yet the router
caches one handle per raw name (`self._conn[collection] = ...`), so after
touching both names it holds two handles whose sanitized name coincides,
not exactly one. -/
theorem C6_counterexample :
    _sanitize_collection_for_filesystem ("a/b")
      = _sanitize_collection_for_filesystem ("ab")
    ∧ ("a/b" : String) ≠ ("ab" : String)
    ∧ ((touch_collection (fun c => ConnRef.external c.length)
          (touch_collection (fun c => ConnRef.external c.length) [] ("a/b"))
          ("ab")).filter (fun p =>
            _sanitize_collection_for_filesystem p.1
              == _sanitize_collection_for_filesystem ("ab"))).length = 2 := by
  refine ⟨by decide, by decide, by decide⟩

/-- C6 amended: the router holds exactly one handle per *raw* collection
name: a subsequent reference to an already-seen raw name reuses the cached
handle without invoking the factory again, a first reference appends one
new cache entry, and the raw cache keys stay pairwise distinct.  Two
distinct raw names that sanitize to the same filesystem name each keep
their own handle (sharing one directory, as in the counterexample). -/
theorem C6_router_cache (factory : String → ConnRef)
    (conns : List (String × ConnRef)) (c : String) :
    ((conns.lookup c).isSome = true → touch_collection factory conns c = conns)
    ∧ (conns.lookup c = none →
        touch_collection factory conns c = conns ++ [(c, factory c)])
    ∧ ((conns.map Prod.fst).Nodup →
        ((touch_collection factory conns c).map Prod.fst).Nodup) := by
  refine ⟨?_, ?_, ?_⟩
  · intro hs
    unfold touch_collection
    rw [if_pos hs]
  · intro hn
    unfold touch_collection
    rw [if_neg (by rw [hn]; simp)]
  · intro hnd
    unfold touch_collection
    by_cases hs : (conns.lookup c).isSome = true
    · rw [if_pos hs]
      exact hnd
    · rw [if_neg hs]
      have hnone : conns.lookup c = none :=
        Option.not_isSome_iff_eq_none.mp hs
      have hcnot := lookup_none_not_mem conns c hnone
      simp [List.nodup_append, hnd, hcnot]

/-- Witness for C6 (amended) at a concrete input. -/
theorem C6_router_cache_witness :
    touch_collection (fun c => ConnRef.external 0)
        [(("x"), ConnRef.external 5)] ("x")
      = [(("x"), ConnRef.external 5)] :=
  (C6_router_cache (fun c => ConnRef.external 0)
      [(("x"), ConnRef.external 5)] ("x")).1 (by decide)

/-- Counterexample to C7 as stated: supplying both a connection factory and
a base directory to `MultiDiskStore.__init__` is accepted without error,
because that constructor only checks the neither-supplied case. -/
theorem C7_counterexample :
    (MultiDiskStore_init (some (fun x => ConnRef.external 0))
        (some [("base")]) none true []).isOk = true := rfl

/-- C7 amended: `DiskStore.__init__` raises a configuration error when both
`connection` and `directory` are supplied and when neither is;
`MultiDiskStore.__init__` raises only when neither `connection_factory`
nor `base_directory` is supplied, and accepts every other combination
(when both are supplied, the caller's factory is used). -/
theorem C7_constructor_validation (c : Nat) (d : Dir) (ms : Option Int)
    (ac : Bool) (fs : FS) (f : String → ConnRef) (cwd : Dir) :
    (DiskStore_init (some c) (some d) ms ac fs).1
      = Except.error ConfigError.bothProvided
    ∧ (DiskStore_init none none ms ac fs).1
      = Except.error ConfigError.neitherProvided
    ∧ MultiDiskStore_init none none ms ac cwd
      = Except.error ConfigError.neitherProvided
    ∧ (MultiDiskStore_init (some f) (some d) ms ac cwd).isOk = true
    ∧ (MultiDiskStore_init (some f) none ms ac cwd).isOk = true
    ∧ (MultiDiskStore_init none (some d) ms ac cwd).isOk = true :=
  ⟨rfl, rfl, rfl, rfl, rfl, rfl⟩

/-- C8: opening a store at a directory that does not exist fails with a
configuration error when `auto_create` is false, leaving the filesystem
untouched, and succeeds when `auto_create` is true, creating the directory
together with every intermediate prefix; likewise for the per-collection
directory opened by `default_connection_factory`. -/
theorem C8_auto_create_directories (fs : FS) (d : Dir) (ms : Option Int)
    (base : Dir) (collection : String)
    (hmiss : fs.contains d = false)
    (hmiss2 : fs.contains
        (base ++ [_sanitize_collection_for_filesystem collection]) = false) :
    DiskStore_init none (some d) ms false fs
      = (Except.error (ConfigError.missingDirectory d), fs)
    ∧ (DiskStore_init none (some d) ms true fs).1
      = Except.ok ⟨false, true, ms, ConnRef.file (d ++ [_DB_FILENAME])⟩
    ∧ (DiskStore_init none (some d) ms true fs).2 = mkdirParents fs d
    ∧ (∀ i : Nat, i < d.length →
        d.take (i + 1) ∈ (DiskStore_init none (some d) ms true fs).2)
    ∧ default_connection_factory base false fs collection
      = (Except.error (ConfigError.missingDirectory
          (base ++ [_sanitize_collection_for_filesystem collection])), fs)
    ∧ (default_connection_factory base true fs collection).2
      = mkdirParents fs
          (base ++ [_sanitize_collection_for_filesystem collection]) := by
  have hmem : ∀ i : Nat, i < d.length → d.take (i + 1) ∈ mkdirParents fs d := by
    intro i hi
    unfold mkdirParents
    exact List.mem_append.mpr (Or.inr
      (List.mem_map.mpr ⟨i, List.mem_range.mpr hi, rfl⟩))
  have hd : d ∉ fs := by
    intro hm
    have hc : fs.contains d = true := by simpa [List.contains] using hm
    rw [hmiss] at hc
    exact Bool.false_ne_true hc
  have hd2 : base ++ [_sanitize_collection_for_filesystem collection] ∉ fs := by
    intro hm
    have hc : fs.contains
        (base ++ [_sanitize_collection_for_filesystem collection]) = true := by
      simpa [List.contains] using hm
    rw [hmiss2] at hc
    exact Bool.false_ne_true hc
  refine ⟨?_, ?_, ?_, ?_, ?_, ?_⟩
  · simp [DiskStore_init, hd]
  · simp [DiskStore_init, hd]
  · simp [DiskStore_init, hd]
  · intro i hi
    have h2 : (DiskStore_init none (some d) ms true fs).2 = mkdirParents fs d := by
      simp [DiskStore_init, hd]
    rw [h2]
    exact hmem i hi
  · simp [default_connection_factory, hd2]
  · simp [default_connection_factory, hd2]

/-- Witness for C8 at a concrete input. -/
theorem C8_auto_create_directories_witness :
    DiskStore_init none (some [("x"), ("y")]) none false []
      = (Except.error (ConfigError.missingDirectory [("x"), ("y")]), []) :=
  (C8_auto_create_directories [] [("x"), ("y")] none [("b")] ("c")
      (by decide) (by decide)).1

/-- Counterexample to C9 as stated: a row whose `expire_at` column is set
(non-null) to the value `0`: the Python truthiness test `if expire_epoch:`
treats `0.0` as falsy and skips the override, so the returned entry keeps
its deserialized expiration (`none` here) instead of the column value. -/
theorem C9_counterexample :
    getManagedEntryCore (fun s => ⟨s, none⟩) [⟨"k", "p", some 0⟩] ("k")
      = some ⟨"p", none⟩
    ∧ getManagedEntryCore (fun s => ⟨s, none⟩) [⟨"k", "p", some 0⟩] ("k")
      ≠ some ⟨"p", some 0⟩ :=
  ⟨by decide, by decide⟩

/-- C9 amended: on a read that finds a row, the returned entry's expiration
field is overwritten with the `expire_at` column value exactly when that
value is truthy in Python, i.e. non-null and non-zero; a null or zero
column leaves the deserialized entry unchanged.  The stored payload is
otherwise opaque: the result is the deserialized payload with at most the
expiration field replaced. -/
theorem C9_expire_override (deser : String → ManagedEntry) (rows : List Row)
    (key : String) (row : Row)
    (hfind : rows.find? (fun r => r.key == key) = some row) :
    getManagedEntryCore deser rows key
      = some (if pyTruthy row.expire_at
          then { deser row.value with expires_at := row.expire_at }
          else deser row.value) := by
  unfold getManagedEntryCore _sqlite_get_with_expire
  rw [hfind]

/-- Witness for C9 (amended) at a concrete input: a non-zero column value
is copied into the entry. -/
theorem C9_expire_override_witness :
    getManagedEntryCore (fun s => ⟨s, none⟩) [⟨"k", "p", some 5⟩] ("k")
      = some ⟨"p", some 5⟩ :=
  C9_expire_override (fun s => ⟨s, none⟩) [⟨"k", "p", some 5⟩] ("k")
    ⟨"k", "p", some 5⟩ (by decide)

/-- C10: `GetWithExpire` does not filter by expiration: a stored row whose
`expire_at` is already in the past is still returned before the next
eviction pass, value together with its past `expire_at`, rather than an
absent result. -/
theorem C10_get_returns_expired (rows : List Row) (key : String) (row : Row)
    (t now : Int) (hfind : rows.find? (fun r => r.key == key) = some row)
    (hexp : row.expire_at = some t) (_hpast : t < now) :
    _sqlite_get_with_expire rows key = (some row.value, some t) := by
  unfold _sqlite_get_with_expire
  rw [hfind]
  show (some row.value, row.expire_at) = (some row.value, some t)
  rw [hexp]

/-- Witness for C10 at a concrete input: the row expired at time 1, read at
time 5, is still returned. -/
theorem C10_get_returns_expired_witness :
    _sqlite_get_with_expire [⟨"k", "v", some 1⟩] ("k")
      = (some ("v"), some 1) :=
  C10_get_returns_expired [⟨"k", "v", some 1⟩] ("k") ⟨"k", "v", some 1⟩ 1 5
    (by decide) (by decide) (by decide)

end DiskKV
